import Mathlib

/-!
Shallow embedding of the `pin-rc` crate: two pinned shared-ownership
containers, `PinRc<T>` wrapping `Rc<RefCell<T>>` (single-threaded, file
src/pin_rc.rs) and `PinArc<T>` wrapping `Arc<RwLock<T>>` (multi-threaded,
file src/pin_arc.rs).

Heap allocations are modelled explicitly: a heap maps allocation ids to
boxes holding a strong count, a weak count and the interior-mutability
cell (which is dropped when the strong count reaches zero).  The
reference-counting and interior-mutability primitives (`Rc`, `Weak`,
`RefCell`, `Arc`, `RwLock`) are external collaborators of the crate,
consumed through their std interfaces; they are modelled here from their
documented behaviour.  The `Pin*` layer is translated line by line from
the crate's source.
-/

/-- Marker class modelling the Rust `Unpin` auto trait bound: types that
carry no pinning obligation.  Used only as the trait bound of
`safe_unpin` in both source files. -/
class Unpin (α : Type) : Prop

instance : Unpin Nat := ⟨⟩

namespace pin_rc

/-- Borrow flag of a `RefCell`: free, shared-borrowed by `n + 1` readers
(constructor carries the reader count), or exclusively borrowed. -/
inductive BorrowFlag where
  | free
  | reading (n : Nat)
  | writing

/-- Model of the external collaborator `std::cell::RefCell<T>`: a value
together with its dynamic borrow flag. -/
structure RefCell (α : Type) where
  value : α
  flag : BorrowFlag

/-- `RefCell::new`. -/
def RefCell.new (v : α) : RefCell α := ⟨v, .free⟩

/-- One reference-counted allocation: strong count, weak count, and the
cell, which is `none` once the value has been dropped (strong count hit
zero) while weak references may still observe the allocation. -/
structure RcBox (α : Type) where
  strong : Nat
  weak : Nat
  cell : Option (RefCell α)

/-- The heap: a fresh-id counter and a map from allocation ids to boxes. -/
structure Heap (α : Type) where
  next : Nat
  boxes : Nat → Option (RcBox α)

def Heap.empty : Heap α := ⟨0, fun _ => none⟩

def Heap.get (h : Heap α) (i : Nat) : Option (RcBox α) := h.boxes i

def Heap.set (h : Heap α) (i : Nat) (b : RcBox α) : Heap α :=
  ⟨h.next, Function.update h.boxes i (some b)⟩

/-- Model of the external collaborator `std::rc::Rc<RefCell<T>>`: a
strong handle, i.e. an allocation id. -/
structure Rc (α : Type) where
  id : Nat

/-- Model of the external collaborator `std::rc::Weak<RefCell<T>>`: an
optional allocation id; `none` is the dangling weak made by
`Weak::default`, which never had an allocation. -/
structure Weak (α : Type) where
  id : Option Nat

/-- `Rc::new`: allocate a fresh box with strong count 1 and weak count 0. -/
def Rc.new (c : RefCell α) (h : Heap α) : Rc α × Heap α :=
  (⟨h.next⟩, ⟨h.next + 1, Function.update h.boxes h.next (some ⟨1, 0, some c⟩)⟩)

/-- `Rc::clone`: increment the strong count; the returned handle aliases
the same allocation.  No data is copied and no allocation is made. -/
def Rc.clone (r : Rc α) (h : Heap α) : Rc α × Heap α :=
  match h.get r.id with
  | some b => (⟨r.id⟩, h.set r.id { b with strong := b.strong + 1 })
  | none => (⟨r.id⟩, h)

/-- `Rc::downgrade`: increment the weak count and return a weak handle to
the same allocation. -/
def Rc.downgrade (r : Rc α) (h : Heap α) : Weak α × Heap α :=
  match h.get r.id with
  | some b => (⟨some r.id⟩, h.set r.id { b with weak := b.weak + 1 })
  | none => (⟨some r.id⟩, h)

/-- `Rc::strong_count`. -/
def Rc.strong_count (r : Rc α) (h : Heap α) : Nat :=
  (h.get r.id).elim 0 (·.strong)

/-- `Rc::weak_count`. -/
def Rc.weak_count (r : Rc α) (h : Heap α) : Nat :=
  (h.get r.id).elim 0 (·.weak)

/-- `Rc::ptr_eq`: allocation-identity comparison. -/
def Rc.ptr_eq (a b : Rc α) : Bool := a.id == b.id

/-- Dropping a strong handle: decrement the strong count; when the last
strong handle is dropped the contained value is dropped with it. -/
def Rc.drop (r : Rc α) (h : Heap α) : Heap α :=
  match h.get r.id with
  | some b =>
    if b.strong ≤ 1 then h.set r.id { b with strong := 0, cell := none }
    else h.set r.id { b with strong := b.strong - 1 }
  | none => h

/-- `Weak::upgrade`: yields a fresh strong handle (incrementing the
strong count) exactly when at least one strong handle still exists;
otherwise yields `none`. -/
def Weak.upgrade (w : Weak α) (h : Heap α) : Option (Rc α) × Heap α :=
  match w.id with
  | none => (none, h)
  | some i =>
    match h.get i with
    | some b =>
      if 0 < b.strong then (some ⟨i⟩, h.set i { b with strong := b.strong + 1 })
      else (none, h)
    | none => (none, h)

/-- `Weak::default` (`Weak::new`): a dangling weak with no allocation. -/
def Weak.default : Weak α := ⟨none⟩

/-- `std::cell::BorrowError`, returned by `RefCell::try_borrow`. -/
inductive BorrowError where
  | borrowError

/-- `std::cell::BorrowMutError`, returned by `RefCell::try_borrow_mut`. -/
inductive BorrowMutError where
  | borrowMutError

/-- Model of `std::cell::Ref<T>`, a shared borrow guard on the cell in
allocation `id`. -/
structure Ref (α : Type) where
  id : Nat

/-- Model of `std::cell::RefMut<T>`, an exclusive borrow guard on the
cell in allocation `id`. -/
structure RefMut (α : Type) where
  id : Nat

/-- `RefCell::try_borrow` through an `Rc` handle: fails exactly when an
exclusive borrow is outstanding, else increments the reader count. -/
def Rc.try_borrow (r : Rc α) (h : Heap α) : Except BorrowError (Ref α × Heap α) :=
  match h.get r.id with
  | some b =>
    match b.cell with
    | some c =>
      match c.flag with
      | .writing => .error .borrowError
      | .free => .ok (⟨r.id⟩, h.set r.id { b with cell := some { c with flag := .reading 0 } })
      | .reading n => .ok (⟨r.id⟩, h.set r.id { b with cell := some { c with flag := .reading (n + 1) } })
    | none => .error .borrowError
  | none => .error .borrowError

/-- `RefCell::try_borrow_mut` through an `Rc` handle: fails exactly when
any borrow is outstanding, else takes the exclusive borrow. -/
def Rc.try_borrow_mut (r : Rc α) (h : Heap α) : Except BorrowMutError (RefMut α × Heap α) :=
  match h.get r.id with
  | some b =>
    match b.cell with
    | some c =>
      match c.flag with
      | .free => .ok (⟨r.id⟩, h.set r.id { b with cell := some { c with flag := .writing } })
      | .reading _ => .error .borrowMutError
      | .writing => .error .borrowMutError
    | none => .error .borrowMutError
  | none => .error .borrowMutError

/-- `RefCell::borrow`: the aborting form; `none` models the abort
(panic) on a conflicting outstanding borrow. -/
def Rc.borrow (r : Rc α) (h : Heap α) : Option (Ref α × Heap α) :=
  (r.try_borrow h).toOption

/-- `RefCell::borrow_mut`: the aborting form; `none` models the abort. -/
def Rc.borrow_mut (r : Rc α) (h : Heap α) : Option (RefMut α × Heap α) :=
  (r.try_borrow_mut h).toOption

/-- Dereferencing a shared borrow guard reads the cell's value. -/
def Ref.deref (g : Ref α) (h : Heap α) : Option α :=
  ((h.get g.id).bind (·.cell)).map (·.value)

/-- Dropping a shared borrow guard: one reader fewer; the flag returns
to `free` when the last reader releases. -/
def Ref.drop (g : Ref α) (h : Heap α) : Heap α :=
  match h.get g.id with
  | some b =>
    match b.cell with
    | some c =>
      match c.flag with
      | .reading (n + 1) => h.set g.id { b with cell := some { c with flag := .reading n } }
      | .reading 0 => h.set g.id { b with cell := some { c with flag := .free } }
      | _ => h
    | none => h
  | none => h

/-- Dereferencing an exclusive borrow guard reads the cell's value. -/
def RefMut.deref (g : RefMut α) (h : Heap α) : Option α :=
  ((h.get g.id).bind (·.cell)).map (·.value)

/-- Dropping an exclusive borrow guard releases the exclusive borrow. -/
def RefMut.drop (g : RefMut α) (h : Heap α) : Heap α :=
  match h.get g.id with
  | some b =>
    match b.cell with
    | some c =>
      match c.flag with
      | .writing => h.set g.id { b with cell := some { c with flag := .free } }
      | _ => h
    | none => h
  | none => h

/-- `PinRc<T>` (src/pin_rc.rs lines 8-11): a newtype over
`Rc<RefCell<T>>`. -/
structure PinRc (α : Type) where
  inner : Rc α

/-- `PinWeak<T>` (src/pin_rc.rs lines 13-15). -/
structure PinWeak (α : Type) where
  inner : Weak α

/-- `PinRef<'a, T>` (src/pin_rc.rs lines 17-19). -/
structure PinRef (α : Type) where
  inner : Ref α

/-- `PinRefMut<'a, T>` (src/pin_rc.rs lines 21-23). -/
structure PinRefMut (α : Type) where
  inner : RefMut α

/-- The pinned mutable view `std::mem::Pin<T>` produced by `as_pin`
(external collaborator): a mutable reference into allocation `id` whose
referent is guaranteed not to move. -/
structure Pin (α : Type) where
  id : Nat

/-- Mutating the referent through the pinned view (what a consumer of
`Pin` does: mutate in place, never relocate). -/
def Pin.modify (p : Pin α) (f : α → α) (h : Heap α) : Heap α :=
  match h.get p.id with
  | some b =>
    match b.cell with
    | some c => h.set p.id { b with cell := some { c with value := f c.value } }
    | none => h
  | none => h

/-- `PinRc::new` (lines 27-29): `Rc::new(RefCell::new(data))`. -/
def PinRc.new (data : α) (h : Heap α) : PinRc α × Heap α :=
  let p := Rc.new (RefCell.new data) h
  (⟨p.1⟩, p.2)

/-- `PinRc::safe_unpin` (lines 33-35): available only under `T: Unpin`;
returns the wrapped `Rc<RefCell<T>>` itself. -/
def PinRc.safe_unpin [Unpin α] (this : PinRc α) : Rc α :=
  this.inner

/-- `PinRc::downgrade` (lines 57-59). -/
def PinRc.downgrade (this : PinRc α) (h : Heap α) : PinWeak α × Heap α :=
  let p := Rc.downgrade this.inner h
  (⟨p.1⟩, p.2)

/-- `PinRc::weak_count` (lines 62-64). -/
def PinRc.weak_count (this : PinRc α) (h : Heap α) : Nat :=
  Rc.weak_count this.inner h

/-- `PinRc::strong_count` (lines 67-69). -/
def PinRc.strong_count (this : PinRc α) (h : Heap α) : Nat :=
  Rc.strong_count this.inner h

/-- `PinRc::ptr_eq` (lines 72-74). -/
def PinRc.ptr_eq (this other : PinRc α) : Bool :=
  Rc.ptr_eq this.inner other.inner

/-- `PinRc::borrow` (lines 77-79): wraps `self.inner.borrow()`. -/
def PinRc.borrow (self : PinRc α) (h : Heap α) : Option (PinRef α × Heap α) :=
  (Rc.borrow self.inner h).map fun p => (⟨p.1⟩, p.2)

/-- `PinRc::borrow_mut` (lines 82-84). -/
def PinRc.borrow_mut (self : PinRc α) (h : Heap α) : Option (PinRefMut α × Heap α) :=
  (Rc.borrow_mut self.inner h).map fun p => (⟨p.1⟩, p.2)

/-- `PinRc::try_borrow` (lines 87-89). -/
def PinRc.try_borrow (self : PinRc α) (h : Heap α) : Except BorrowError (PinRef α × Heap α) :=
  (Rc.try_borrow self.inner h).map fun p => (⟨p.1⟩, p.2)

/-- `PinRc::try_borrow_mut` (lines 92-94). -/
def PinRc.try_borrow_mut (self : PinRc α) (h : Heap α) : Except BorrowMutError (PinRefMut α × Heap α) :=
  (Rc.try_borrow_mut self.inner h).map fun p => (⟨p.1⟩, p.2)

/-- `impl Clone for PinRc` (lines 97-102): clones the inner `Rc`. -/
def PinRc.clone (self : PinRc α) (h : Heap α) : PinRc α × Heap α :=
  let p := Rc.clone self.inner h
  (⟨p.1⟩, p.2)

/-- Dropping a `PinRc` handle drops the inner `Rc`. -/
def PinRc.drop (self : PinRc α) (h : Heap α) : Heap α :=
  Rc.drop self.inner h

/-- `impl From<T> for PinRc<T>` (lines 104-109). -/
def PinRc.from_value (t : α) (h : Heap α) : PinRc α × Heap α :=
  PinRc.new t h

/-- `impl From<Rc<RefCell<T>>> for PinRc<T>` (lines 111-116): available
for every `T`, no `Unpin` bound. -/
def PinRc.from_rc (inner : Rc α) : PinRc α :=
  ⟨inner⟩

/-- `Deref for PinRef` (lines 125-132). -/
def PinRef.deref (self : PinRef α) (h : Heap α) : Option α :=
  self.inner.deref h

/-- Dropping a `PinRef` guard drops the inner `Ref`. -/
def PinRef.drop (self : PinRef α) (h : Heap α) : Heap α :=
  self.inner.drop h

/-- `PinRefMut::as_pin` (lines 136-138): the pinned mutable view over
the guarded cell. -/
def PinRefMut.as_pin (self : PinRefMut α) : Pin α :=
  ⟨self.inner.id⟩

/-- `Deref for PinRefMut` (lines 155-162). -/
def PinRefMut.deref (self : PinRefMut α) (h : Heap α) : Option α :=
  self.inner.deref h

/-- Dropping a `PinRefMut` guard drops the inner `RefMut`. -/
def PinRefMut.drop (self : PinRefMut α) (h : Heap α) : Heap α :=
  self.inner.drop h

/-- `PinWeak::upgrade` (lines 164-169): `self.inner.upgrade().map(...)`. -/
def PinWeak.upgrade (self : PinWeak α) (h : Heap α) : Option (PinRc α) × Heap α :=
  let p := Weak.upgrade self.inner h
  (p.1.map fun inner => ⟨inner⟩, p.2)

/-- `impl Clone for PinWeak` (lines 171-177). -/
def PinWeak.clone (self : PinWeak α) : PinWeak α :=
  ⟨self.inner⟩

/-- `impl Default for PinWeak` (lines 185-191): upgrading it always
gives `None`. -/
def PinWeak.default : PinWeak α :=
  ⟨Weak.default⟩

/-- Strong count of the allocation a weak handle observes (0 when the
handle is dangling or the allocation is gone): the observation the
upgrade contract is stated against. -/
def PinWeak.strong_at (self : PinWeak α) (h : Heap α) : Nat :=
  match self.inner.id with
  | none => 0
  | some i => (h.get i).elim 0 (·.strong)

/-- The derive list on `PinRc` (src/pin_rc.rs line 8). -/
def PinRc.derivedTraits : List String :=
  ["Default", "PartialEq", "Eq", "PartialOrd", "Ord", "Debug"]

/-- Derived `PartialEq` on `PinRc` (line 8), which delegates to
`Rc<RefCell<T>>`: compares the borrowed values, not the allocation ids;
`none` models the panic when a value is unreadable (exclusively
borrowed or dropped). -/
def PinRc.eqVal (beq : α → α → Bool) (a b : PinRc α) (h : Heap α) : Option Bool :=
  match (h.get a.inner.id).bind (·.cell), (h.get b.inner.id).bind (·.cell) with
  | some ca, some cb =>
    match ca.flag, cb.flag with
    | .writing, _ => none
    | _, .writing => none
    | _, _ => some (beq ca.value cb.value)
  | _, _ => none

/-- Derived `Ord` on `PinRc` (line 8), delegating to the borrowed
values, like `eqVal`. -/
def PinRc.cmpVal (cmp : α → α → Ordering) (a b : PinRc α) (h : Heap α) : Option Ordering :=
  match (h.get a.inner.id).bind (·.cell), (h.get b.inner.id).bind (·.cell) with
  | some ca, some cb =>
    match ca.flag, cb.flag with
    | .writing, _ => none
    | _, .writing => none
    | _, _ => some (cmp ca.value cb.value)
  | _, _ => none

/-- `Debug` formatting of a `RefCell` (external collaborator): shows the
value, or a `<borrowed>` placeholder while exclusively borrowed. -/
def RefCell.debug_fmt (fmt : α → String) (c : RefCell α) : String :=
  match c.flag with
  | .writing => "RefCell \x7b value: <borrowed> \x7d"
  | _ => "RefCell \x7b value: " ++ fmt c.value ++ " \x7d"

/-- Derived `Debug` on `PinRc` (line 8): formats the wrapped value, not
the allocation id; `none` when the allocation's value is gone. -/
def PinRc.debug_fmt (fmt : α → String) (a : PinRc α) (h : Heap α) : Option String :=
  ((h.get a.inner.id).bind (·.cell)).map fun c =>
    "PinRc \x7b inner: " ++ RefCell.debug_fmt fmt c ++ " \x7d"

end pin_rc

namespace pin_arc

/-- Lock state of an `RwLock`: unlocked, read-locked by `n + 1` readers
(constructor carries the reader count), or write-locked. -/
inductive LockState where
  | unlocked
  | readLocked (n : Nat)
  | writeLocked

/-- Model of the external collaborator `std::sync::RwLock<T>`: a value,
the lock state, and the poison flag set when a writer terminates
abnormally while holding the lock. -/
structure RwLock (α : Type) where
  value : α
  lock : LockState
  poisoned : Bool

/-- `RwLock::new`. -/
def RwLock.new (v : α) : RwLock α := ⟨v, .unlocked, false⟩

/-- One atomically reference-counted allocation, shaped like the
single-threaded `RcBox` but holding an `RwLock` cell. -/
structure ArcBox (α : Type) where
  strong : Nat
  weak : Nat
  cell : Option (RwLock α)

/-- The heap of `Arc` allocations. -/
structure Heap (α : Type) where
  next : Nat
  boxes : Nat → Option (ArcBox α)

def Heap.empty : Heap α := ⟨0, fun _ => none⟩

def Heap.get (h : Heap α) (i : Nat) : Option (ArcBox α) := h.boxes i

def Heap.set (h : Heap α) (i : Nat) (b : ArcBox α) : Heap α :=
  ⟨h.next, Function.update h.boxes i (some b)⟩

/-- Model of `std::sync::Arc<RwLock<T>>`: a strong handle. -/
structure Arc (α : Type) where
  id : Nat

/-- Model of `std::sync::Weak<RwLock<T>>`. -/
structure Weak (α : Type) where
  id : Option Nat

/-- `Arc::new`. -/
def Arc.new (c : RwLock α) (h : Heap α) : Arc α × Heap α :=
  (⟨h.next⟩, ⟨h.next + 1, Function.update h.boxes h.next (some ⟨1, 0, some c⟩)⟩)

/-- `Arc::clone`. -/
def Arc.clone (r : Arc α) (h : Heap α) : Arc α × Heap α :=
  match h.get r.id with
  | some b => (⟨r.id⟩, h.set r.id { b with strong := b.strong + 1 })
  | none => (⟨r.id⟩, h)

/-- `Arc::downgrade`. -/
def Arc.downgrade (r : Arc α) (h : Heap α) : Weak α × Heap α :=
  match h.get r.id with
  | some b => (⟨some r.id⟩, h.set r.id { b with weak := b.weak + 1 })
  | none => (⟨some r.id⟩, h)

/-- `Arc::strong_count`. -/
def Arc.strong_count (r : Arc α) (h : Heap α) : Nat :=
  (h.get r.id).elim 0 (·.strong)

/-- `Arc::weak_count`. -/
def Arc.weak_count (r : Arc α) (h : Heap α) : Nat :=
  (h.get r.id).elim 0 (·.weak)

/-- `Arc::ptr_eq`. -/
def Arc.ptr_eq (a b : Arc α) : Bool := a.id == b.id

/-- Dropping a strong handle. -/
def Arc.drop (r : Arc α) (h : Heap α) : Heap α :=
  match h.get r.id with
  | some b =>
    if b.strong ≤ 1 then h.set r.id { b with strong := 0, cell := none }
    else h.set r.id { b with strong := b.strong - 1 }
  | none => h

/-- `Weak::upgrade`. -/
def Weak.upgrade (w : Weak α) (h : Heap α) : Option (Arc α) × Heap α :=
  match w.id with
  | none => (none, h)
  | some i =>
    match h.get i with
    | some b =>
      if 0 < b.strong then (some ⟨i⟩, h.set i { b with strong := b.strong + 1 })
      else (none, h)
    | none => (none, h)

/-- `Weak::default` (`Weak::new`): dangling, no allocation. -/
def Weak.default : Weak α := ⟨none⟩

/-- Model of `std::sync::LockResult<G>` = `Result<G, PoisonError<G>>`:
either the guard, or the guard wrapped in the poisoned indicator. -/
inductive LockResult (γ : Type) where
  | ok (g : γ)
  | poisoned (g : γ)

/-- Model of `std::sync::TryLockResult<G>`: the guard, the guard wrapped
in the poisoned indicator, or the distinct would-block indicator. -/
inductive TryLockResult (γ : Type) where
  | ok (g : γ)
  | poisoned (g : γ)
  | wouldBlock

/-- Model of `std::sync::RwLockReadGuard`. -/
structure ReadGuard (α : Type) where
  id : Nat

/-- Model of `std::sync::RwLockWriteGuard`. -/
structure WriteGuard (α : Type) where
  id : Nat

/-- `RwLock::read` through an `Arc` handle: blocks (`none`) while a
writer holds the lock; otherwise acquires shared access, reporting
poisoning through the result. -/
def Arc.read (r : Arc α) (h : Heap α) : Option (LockResult (ReadGuard α) × Heap α) :=
  match h.get r.id with
  | some b =>
    match b.cell with
    | some c =>
      match c.lock with
      | .writeLocked => none
      | .unlocked =>
        let h2 := h.set r.id { b with cell := some { c with lock := .readLocked 0 } }
        some (if c.poisoned then (.poisoned ⟨r.id⟩, h2) else (.ok ⟨r.id⟩, h2))
      | .readLocked n =>
        let h2 := h.set r.id { b with cell := some { c with lock := .readLocked (n + 1) } }
        some (if c.poisoned then (.poisoned ⟨r.id⟩, h2) else (.ok ⟨r.id⟩, h2))
    | none => none
  | none => none

/-- `RwLock::write` through an `Arc` handle: blocks (`none`) while any
guard is outstanding; otherwise acquires exclusive access, reporting
poisoning through the result. -/
def Arc.write (r : Arc α) (h : Heap α) : Option (LockResult (WriteGuard α) × Heap α) :=
  match h.get r.id with
  | some b =>
    match b.cell with
    | some c =>
      match c.lock with
      | .unlocked =>
        let h2 := h.set r.id { b with cell := some { c with lock := .writeLocked } }
        some (if c.poisoned then (.poisoned ⟨r.id⟩, h2) else (.ok ⟨r.id⟩, h2))
      | .readLocked _ => none
      | .writeLocked => none
    | none => none
  | none => none

/-- `RwLock::try_read`: would-block (instead of blocking) exactly when a
writer holds the lock. -/
def Arc.try_read (r : Arc α) (h : Heap α) : TryLockResult (ReadGuard α) × Heap α :=
  match h.get r.id with
  | some b =>
    match b.cell with
    | some c =>
      match c.lock with
      | .writeLocked => (.wouldBlock, h)
      | .unlocked =>
        let h2 := h.set r.id { b with cell := some { c with lock := .readLocked 0 } }
        if c.poisoned then (.poisoned ⟨r.id⟩, h2) else (.ok ⟨r.id⟩, h2)
      | .readLocked n =>
        let h2 := h.set r.id { b with cell := some { c with lock := .readLocked (n + 1) } }
        if c.poisoned then (.poisoned ⟨r.id⟩, h2) else (.ok ⟨r.id⟩, h2)
    | none => (.wouldBlock, h)
  | none => (.wouldBlock, h)

/-- `RwLock::try_write`: would-block exactly when any guard is
outstanding. -/
def Arc.try_write (r : Arc α) (h : Heap α) : TryLockResult (WriteGuard α) × Heap α :=
  match h.get r.id with
  | some b =>
    match b.cell with
    | some c =>
      match c.lock with
      | .unlocked =>
        let h2 := h.set r.id { b with cell := some { c with lock := .writeLocked } }
        if c.poisoned then (.poisoned ⟨r.id⟩, h2) else (.ok ⟨r.id⟩, h2)
      | .readLocked _ => (.wouldBlock, h)
      | .writeLocked => (.wouldBlock, h)
    | none => (.wouldBlock, h)
  | none => (.wouldBlock, h)

/-- `RwLock::is_poisoned` through an `Arc` handle. -/
def Arc.is_poisoned (r : Arc α) (h : Heap α) : Bool :=
  (((h.get r.id).bind (·.cell)).map (·.poisoned)).getD false

/-- Dereferencing a read guard. -/
def ReadGuard.deref (g : ReadGuard α) (h : Heap α) : Option α :=
  ((h.get g.id).bind (·.cell)).map (·.value)

/-- Dropping a read guard: one reader fewer. -/
def ReadGuard.drop (g : ReadGuard α) (h : Heap α) : Heap α :=
  match h.get g.id with
  | some b =>
    match b.cell with
    | some c =>
      match c.lock with
      | .readLocked (n + 1) => h.set g.id { b with cell := some { c with lock := .readLocked n } }
      | .readLocked 0 => h.set g.id { b with cell := some { c with lock := .unlocked } }
      | _ => h
    | none => h
  | none => h

/-- Dereferencing a write guard. -/
def WriteGuard.deref (g : WriteGuard α) (h : Heap α) : Option α :=
  ((h.get g.id).bind (·.cell)).map (·.value)

/-- Dropping a write guard normally: releases the lock, leaves the
poison flag untouched. -/
def WriteGuard.drop (g : WriteGuard α) (h : Heap α) : Heap α :=
  match h.get g.id with
  | some b =>
    match b.cell with
    | some c =>
      match c.lock with
      | .writeLocked => h.set g.id { b with cell := some { c with lock := .unlocked } }
      | _ => h
    | none => h
  | none => h

/-- The holder of a write guard terminating abnormally mid-mutation:
the lock is released and the poison flag is set (std sets the flag when
a write guard is dropped during unwinding). -/
def WriteGuard.poison_drop (g : WriteGuard α) (h : Heap α) : Heap α :=
  match h.get g.id with
  | some b =>
    match b.cell with
    | some c =>
      match c.lock with
      | .writeLocked => h.set g.id { b with cell := some { c with lock := .unlocked, poisoned := true } }
      | _ => h
    | none => h
  | none => h

/-- `PinArc<T>` (src/pin_arc.rs lines 10-13): a newtype over
`Arc<RwLock<T>>`. -/
structure PinArc (α : Type) where
  inner : Arc α

/-- `PinWeak<T>` (src/pin_arc.rs lines 15-17). -/
structure PinWeak (α : Type) where
  inner : Weak α

/-- `PinRwLockReadGuard<'a, T>` (lines 19-21). -/
structure PinRwLockReadGuard (α : Type) where
  inner : ReadGuard α

/-- `PinRwLockWriteGuard<'a, T>` (lines 23-25). -/
structure PinRwLockWriteGuard (α : Type) where
  inner : WriteGuard α

/-- The pinned mutable view over the locked cell. -/
structure Pin (α : Type) where
  id : Nat

/-- Mutating the referent through the pinned view. -/
def Pin.modify (p : Pin α) (f : α → α) (h : Heap α) : Heap α :=
  match h.get p.id with
  | some b =>
    match b.cell with
    | some c => h.set p.id { b with cell := some { c with value := f c.value } }
    | none => h
  | none => h

/-- `PinArc::new` (lines 29-31): `Arc::new(RwLock::new(data))`. -/
def PinArc.new (data : α) (h : Heap α) : PinArc α × Heap α :=
  let p := Arc.new (RwLock.new data) h
  (⟨p.1⟩, p.2)

/-- `PinArc::safe_unpin` (lines 35-37): available only under `T: Unpin`. -/
def PinArc.safe_unpin [Unpin α] (this : PinArc α) : Arc α :=
  this.inner

/-- `PinArc::downgrade` (lines 59-61). -/
def PinArc.downgrade (this : PinArc α) (h : Heap α) : PinWeak α × Heap α :=
  let p := Arc.downgrade this.inner h
  (⟨p.1⟩, p.2)

/-- `PinArc::weak_count` (lines 64-66). -/
def PinArc.weak_count (this : PinArc α) (h : Heap α) : Nat :=
  Arc.weak_count this.inner h

/-- `PinArc::strong_count` (lines 69-71). -/
def PinArc.strong_count (this : PinArc α) (h : Heap α) : Nat :=
  Arc.strong_count this.inner h

/-- `PinArc::ptr_eq` (lines 74-76). -/
def PinArc.ptr_eq (this other : PinArc α) : Bool :=
  Arc.ptr_eq this.inner other.inner

/-- `PinArc::read` (lines 79-84): rewraps `Ok(inner)` and
`Err(PoisonError)` around the pinned guard type. -/
def PinArc.read (self : PinArc α) (h : Heap α) : Option (LockResult (PinRwLockReadGuard α) × Heap α) :=
  (Arc.read self.inner h).map fun p =>
    match p.1 with
    | .ok g => (.ok ⟨g⟩, p.2)
    | .poisoned g => (.poisoned ⟨g⟩, p.2)

/-- `PinArc::write` (lines 87-92). -/
def PinArc.write (self : PinArc α) (h : Heap α) : Option (LockResult (PinRwLockWriteGuard α) × Heap α) :=
  (Arc.write self.inner h).map fun p =>
    match p.1 with
    | .ok g => (.ok ⟨g⟩, p.2)
    | .poisoned g => (.poisoned ⟨g⟩, p.2)

/-- `PinArc::try_read` (lines 95-103): rewraps all three outcomes,
passing `WouldBlock` through unchanged. -/
def PinArc.try_read (self : PinArc α) (h : Heap α) : TryLockResult (PinRwLockReadGuard α) × Heap α :=
  let p := Arc.try_read self.inner h
  match p.1 with
  | .ok g => (.ok ⟨g⟩, p.2)
  | .poisoned g => (.poisoned ⟨g⟩, p.2)
  | .wouldBlock => (.wouldBlock, p.2)

/-- `PinArc::try_write` (lines 106-114). -/
def PinArc.try_write (self : PinArc α) (h : Heap α) : TryLockResult (PinRwLockWriteGuard α) × Heap α :=
  let p := Arc.try_write self.inner h
  match p.1 with
  | .ok g => (.ok ⟨g⟩, p.2)
  | .poisoned g => (.poisoned ⟨g⟩, p.2)
  | .wouldBlock => (.wouldBlock, p.2)

/-- `PinArc::is_poisoned` (lines 117-119). -/
def PinArc.is_poisoned (self : PinArc α) (h : Heap α) : Bool :=
  Arc.is_poisoned self.inner h

/-- `impl Clone for PinArc` (lines 122-127). -/
def PinArc.clone (self : PinArc α) (h : Heap α) : PinArc α × Heap α :=
  let p := Arc.clone self.inner h
  (⟨p.1⟩, p.2)

/-- Dropping a `PinArc` handle drops the inner `Arc`. -/
def PinArc.drop (self : PinArc α) (h : Heap α) : Heap α :=
  Arc.drop self.inner h

/-- `impl From<T> for PinArc<T>` (lines 129-134). -/
def PinArc.from_value (t : α) (h : Heap α) : PinArc α × Heap α :=
  PinArc.new t h

/-- `impl From<Arc<RwLock<T>>> for PinArc<T>` (lines 136-141): available
for every `T`, no `Unpin` bound. -/
def PinArc.from_arc (inner : Arc α) : PinArc α :=
  ⟨inner⟩

/-- `Deref for PinRwLockReadGuard` (lines 143-150). -/
def PinRwLockReadGuard.deref (self : PinRwLockReadGuard α) (h : Heap α) : Option α :=
  self.inner.deref h

/-- Dropping the pinned read guard drops the inner guard. -/
def PinRwLockReadGuard.drop (self : PinRwLockReadGuard α) (h : Heap α) : Heap α :=
  self.inner.drop h

/-- `PinRwLockWriteGuard::as_pin` (lines 154-156). -/
def PinRwLockWriteGuard.as_pin (self : PinRwLockWriteGuard α) : Pin α :=
  ⟨self.inner.id⟩

/-- `Deref for PinRwLockWriteGuard` (lines 163-170). -/
def PinRwLockWriteGuard.deref (self : PinRwLockWriteGuard α) (h : Heap α) : Option α :=
  self.inner.deref h

/-- Dropping the pinned write guard normally. -/
def PinRwLockWriteGuard.drop (self : PinRwLockWriteGuard α) (h : Heap α) : Heap α :=
  self.inner.drop h

/-- The holder of the pinned write guard terminating abnormally. -/
def PinRwLockWriteGuard.poison_drop (self : PinRwLockWriteGuard α) (h : Heap α) : Heap α :=
  self.inner.poison_drop h

/-- `PinWeak::upgrade` (lines 172-177). -/
def PinWeak.upgrade (self : PinWeak α) (h : Heap α) : Option (PinArc α) × Heap α :=
  let p := Weak.upgrade self.inner h
  (p.1.map fun inner => ⟨inner⟩, p.2)

/-- `impl Clone for PinWeak` (lines 179-185). -/
def PinWeak.clone (self : PinWeak α) : PinWeak α :=
  ⟨self.inner⟩

/-- `impl Default for PinWeak` (lines 193-199). -/
def PinWeak.default : PinWeak α :=
  ⟨Weak.default⟩

/-- Strong count of the allocation a weak handle observes. -/
def PinWeak.strong_at (self : PinWeak α) (h : Heap α) : Nat :=
  match self.inner.id with
  | none => 0
  | some i => (h.get i).elim 0 (·.strong)

/-- The derive list on `PinArc` (src/pin_arc.rs line 10): only `Default`
and `Debug`; no equality or ordering is derived or implemented. -/
def PinArc.derivedTraits : List String :=
  ["Default", "Debug"]

/-- `Debug` formatting of an `RwLock` (external collaborator): shows the
value, or a `<locked>` placeholder while write-locked. -/
def RwLock.debug_fmt (fmt : α → String) (c : RwLock α) : String :=
  match c.lock with
  | .writeLocked => "RwLock \x7b data: <locked> \x7d"
  | _ => "RwLock \x7b data: " ++ fmt c.value ++ " \x7d"

/-- Derived `Debug` on `PinArc` (line 10): formats the wrapped value,
not the allocation id. -/
def PinArc.debug_fmt (fmt : α → String) (a : PinArc α) (h : Heap α) : Option String :=
  ((h.get a.inner.id).bind (·.cell)).map fun c =>
    "PinArc \x7b inner: " ++ RwLock.debug_fmt fmt c ++ " \x7d"

end pin_arc

namespace pin_rc

/-- Driving loop of the crate's own test (src/lib.rs, `pin_rc_works`):
`n` times, acquire the exclusive guard with `borrow_mut`, mutate the
value through the pinned view obtained by `as_pin`, and release the
guard. -/
def PinRc.step_n (self : PinRc α) (f : α → α) : Nat → Heap α → Option (Heap α)
  | 0, h => some h
  | n + 1, h =>
    match self.borrow_mut h with
    | some q => PinRc.step_n self f n (q.1.drop ((q.1.as_pin).modify f q.2))
    | none => none

end pin_rc

namespace pin_arc

/-- Driving loop of the crate's own test (src/lib.rs, `pin_arc_works`):
`n` times, acquire the exclusive guard with `write` (unwrapped, as in
the test), mutate through the pinned view from `as_pin`, release. -/
def PinArc.step_n (self : PinArc α) (f : α → α) : Nat → Heap α → Option (Heap α)
  | 0, h => some h
  | n + 1, h =>
    match self.write h with
    | some (.ok g, h1) => PinArc.step_n self f n (g.drop ((g.as_pin).modify f h1))
    | _ => none

end pin_arc

section Theorems

/-- Claim C1: for every value `v`, constructing a container from `v`
(`PinRc::new` / `PinArc::new`) and then dereferencing through a
shared-access guard (`PinRc::borrow` / `PinArc::read`) yields a value
equal to `v`. -/
theorem claim_C1_construct_then_shared_read (α : Type) (v : α)
    (h : pin_rc.Heap α) (ha : pin_arc.Heap α) :
    (let p := pin_rc.PinRc.new v h
     (pin_rc.PinRc.borrow p.1 p.2).elim False fun q =>
       pin_rc.PinRef.deref q.1 q.2 = some v) ∧
    (let p := pin_arc.PinArc.new v ha
     (pin_arc.PinArc.read p.1 p.2).elim False fun q =>
       match q.1 with
       | .ok g => pin_arc.PinRwLockReadGuard.deref g q.2 = some v
       | .poisoned _ => False) := by
  constructor
  · simp [pin_rc.PinRc.new, pin_rc.Rc.new, pin_rc.RefCell.new, pin_rc.PinRc.borrow,
      pin_rc.Rc.borrow, pin_rc.Rc.try_borrow, pin_rc.Heap.get, pin_rc.Heap.set,
      pin_rc.PinRef.deref, pin_rc.Ref.deref, Except.toOption, Function.update_same]
  · simp [pin_arc.PinArc.new, pin_arc.Arc.new, pin_arc.RwLock.new, pin_arc.PinArc.read,
      pin_arc.Arc.read, pin_arc.Heap.get, pin_arc.Heap.set,
      pin_arc.PinRwLockReadGuard.deref, pin_arc.ReadGuard.deref, Function.update_same]

/-- Claim C2: for the single-threaded container, requesting exclusive
access while any borrow guard is outstanding fails, and requesting
shared access while an exclusive guard is outstanding fails; the
aborting forms (`borrow`/`borrow_mut`) abort (modelled as `none`) and
the checked forms (`try_borrow`/`try_borrow_mut`) return an explicit
failure value; once the conflicting guard is dropped, the same request
succeeds. -/
theorem claim_C2_borrow_conflicts (α : Type) (v : α) (h : pin_rc.Heap α) :
    (let p := pin_rc.PinRc.new v h
     (pin_rc.PinRc.borrow p.1 p.2).elim False fun q =>
       pin_rc.PinRc.try_borrow_mut p.1 q.2 = .error .borrowMutError ∧
       pin_rc.PinRc.borrow_mut p.1 q.2 = none ∧
       ((pin_rc.PinRc.borrow_mut p.1 (pin_rc.PinRef.drop q.1 q.2)).elim False fun r =>
         pin_rc.PinRefMut.deref r.1 r.2 = some v) ∧
       (pin_rc.PinRc.try_borrow_mut p.1 (pin_rc.PinRef.drop q.1 q.2)).toOption.isSome = true) ∧
    (let p := pin_rc.PinRc.new v h
     (pin_rc.PinRc.borrow_mut p.1 p.2).elim False fun q =>
       pin_rc.PinRc.try_borrow p.1 q.2 = .error .borrowError ∧
       pin_rc.PinRc.borrow p.1 q.2 = none ∧
       pin_rc.PinRc.try_borrow_mut p.1 q.2 = .error .borrowMutError ∧
       pin_rc.PinRc.borrow_mut p.1 q.2 = none ∧
       ((pin_rc.PinRc.borrow p.1 (pin_rc.PinRefMut.drop q.1 q.2)).elim False fun r =>
         pin_rc.PinRef.deref r.1 r.2 = some v) ∧
       (pin_rc.PinRc.try_borrow p.1 (pin_rc.PinRefMut.drop q.1 q.2)).toOption.isSome = true) := by
  constructor <;>
    simp [pin_rc.PinRc.new, pin_rc.Rc.new, pin_rc.RefCell.new, pin_rc.PinRc.borrow,
      pin_rc.PinRc.borrow_mut, pin_rc.PinRc.try_borrow, pin_rc.PinRc.try_borrow_mut,
      pin_rc.Rc.borrow, pin_rc.Rc.borrow_mut, pin_rc.Rc.try_borrow, pin_rc.Rc.try_borrow_mut,
      pin_rc.Heap.get, pin_rc.Heap.set, pin_rc.PinRef.deref, pin_rc.PinRef.drop,
      pin_rc.Ref.deref, pin_rc.Ref.drop, pin_rc.PinRefMut.deref, pin_rc.PinRefMut.drop,
      pin_rc.RefMut.deref, pin_rc.RefMut.drop, Except.toOption, Except.map,
      Function.update_same]

/-- Claim C3: for the multi-threaded container, when the lock is
poisoned, `read()` and `write()` still return the access guard, wrapped
in the poisoned-error indicator, and `is_poisoned()` reports the
poisoned state; the non-blocking `try_read()`/`try_write()` return a
would-block indicator, distinct from the poisoned indicator, when the
lock is held incompatibly. -/
theorem claim_C3_poisoning_and_would_block (α : Type) (v : α) (h : pin_arc.Heap α) :
    (let p := pin_arc.PinArc.new v h
     (pin_arc.PinArc.write p.1 p.2).elim False fun q =>
       match q.1 with
       | .poisoned _ => False
       | .ok wg =>
         (pin_arc.PinArc.try_read p.1 q.2).1 = .wouldBlock ∧
         (pin_arc.PinArc.try_write p.1 q.2).1 = .wouldBlock ∧
         (let h3 := pin_arc.PinRwLockWriteGuard.poison_drop wg q.2
          pin_arc.PinArc.is_poisoned p.1 h3 = true ∧
          ((pin_arc.PinArc.read p.1 h3).elim False fun r =>
            match r.1 with
            | .ok _ => False
            | .poisoned g => pin_arc.PinRwLockReadGuard.deref g r.2 = some v) ∧
          ((pin_arc.PinArc.write p.1 h3).elim False fun r =>
            match r.1 with
            | .ok _ => False
            | .poisoned g => pin_arc.PinRwLockWriteGuard.deref g r.2 = some v) ∧
          (match (pin_arc.PinArc.try_write p.1 h3).1 with
           | .poisoned _ => True
           | _ => False) ∧
          (match (pin_arc.PinArc.try_read p.1 h3).1 with
           | .poisoned _ => True
           | _ => False))) ∧
    (let p := pin_arc.PinArc.new v h
     (pin_arc.PinArc.read p.1 p.2).elim False fun q =>
       (pin_arc.PinArc.try_write p.1 q.2).1 = .wouldBlock ∧
       (match (pin_arc.PinArc.try_read p.1 q.2).1 with
        | .ok _ => True
        | _ => False) ∧
       pin_arc.PinArc.is_poisoned p.1 q.2 = false) := by
  constructor <;>
    simp [pin_arc.PinArc.new, pin_arc.Arc.new, pin_arc.RwLock.new, pin_arc.PinArc.read,
      pin_arc.PinArc.write, pin_arc.PinArc.try_read, pin_arc.PinArc.try_write,
      pin_arc.PinArc.is_poisoned, pin_arc.Arc.read, pin_arc.Arc.write, pin_arc.Arc.try_read,
      pin_arc.Arc.try_write, pin_arc.Arc.is_poisoned, pin_arc.Heap.get, pin_arc.Heap.set,
      pin_arc.PinRwLockReadGuard.deref, pin_arc.ReadGuard.deref,
      pin_arc.PinRwLockWriteGuard.deref, pin_arc.WriteGuard.deref,
      pin_arc.PinRwLockWriteGuard.poison_drop, pin_arc.WriteGuard.poison_drop,
      Function.update_same]

/-- Claim C4: for every weak reference of either variant, `upgrade()`
yields a new strong handle to the same allocation if and only if at
least one strong handle still exists at the time of the call (never a
stale handle), and after the last strong handle is dropped `upgrade`
yields `none`. -/
theorem claim_C4_upgrade_iff_strong_alive (α : Type) (v : α)
    (h : pin_rc.Heap α) (w : pin_rc.PinWeak α)
    (ha : pin_arc.Heap α) (wa : pin_arc.PinWeak α) :
    ((pin_rc.PinWeak.upgrade w h).1 =
      if 0 < pin_rc.PinWeak.strong_at w h
      then w.inner.id.map fun i => ⟨⟨i⟩⟩ else none) ∧
    ((pin_arc.PinWeak.upgrade wa ha).1 =
      if 0 < pin_arc.PinWeak.strong_at wa ha
      then wa.inner.id.map fun i => ⟨⟨i⟩⟩ else none) ∧
    (let p := pin_rc.PinRc.new v h
     let q := pin_rc.PinRc.downgrade p.1 p.2
     (pin_rc.PinWeak.upgrade q.1 (pin_rc.PinRc.drop p.1 q.2)).1 = none) ∧
    (let p := pin_arc.PinArc.new v ha
     let q := pin_arc.PinArc.downgrade p.1 p.2
     (pin_arc.PinWeak.upgrade q.1 (pin_arc.PinArc.drop p.1 q.2)).1 = none) := by
  refine ⟨?_, ?_, ?_, ?_⟩
  · obtain ⟨⟨id⟩⟩ := w
    cases id with
    | none => simp [pin_rc.PinWeak.upgrade, pin_rc.Weak.upgrade, pin_rc.PinWeak.strong_at]
    | some i =>
      cases hg : h.get i with
      | none =>
        simp [pin_rc.PinWeak.upgrade, pin_rc.Weak.upgrade, pin_rc.PinWeak.strong_at, hg]
      | some b =>
        by_cases hs : 0 < b.strong <;>
          simp [pin_rc.PinWeak.upgrade, pin_rc.Weak.upgrade, pin_rc.PinWeak.strong_at, hg, hs]
  · obtain ⟨⟨id⟩⟩ := wa
    cases id with
    | none => simp [pin_arc.PinWeak.upgrade, pin_arc.Weak.upgrade, pin_arc.PinWeak.strong_at]
    | some i =>
      cases hg : ha.get i with
      | none =>
        simp [pin_arc.PinWeak.upgrade, pin_arc.Weak.upgrade, pin_arc.PinWeak.strong_at, hg]
      | some b =>
        by_cases hs : 0 < b.strong <;>
          simp [pin_arc.PinWeak.upgrade, pin_arc.Weak.upgrade, pin_arc.PinWeak.strong_at, hg, hs]
  · simp [pin_rc.PinRc.new, pin_rc.Rc.new, pin_rc.RefCell.new, pin_rc.PinRc.downgrade,
      pin_rc.Rc.downgrade, pin_rc.PinRc.drop, pin_rc.Rc.drop, pin_rc.PinWeak.upgrade,
      pin_rc.Weak.upgrade, pin_rc.Heap.get, pin_rc.Heap.set, Function.update_same]
  · simp [pin_arc.PinArc.new, pin_arc.Arc.new, pin_arc.RwLock.new, pin_arc.PinArc.downgrade,
      pin_arc.Arc.downgrade, pin_arc.PinArc.drop, pin_arc.Arc.drop, pin_arc.PinWeak.upgrade,
      pin_arc.Weak.upgrade, pin_arc.Heap.get, pin_arc.Heap.set, Function.update_same]

/-- Claim C5: mutations made through pinned mutable views (`as_pin`)
from sequential exclusive-access acquisitions accumulate: two
sequential acquisitions applying `f` then `g` leave `g (f v)`, and
starting a counter at 0 and incrementing through the pinned view over
10 acquire-release rounds, a final shared read reports 10 — in both
variants. -/
theorem claim_C5_pinned_mutations_accumulate (α : Type) (v : α) (f g : α → α)
    (h : pin_rc.Heap α) (ha : pin_arc.Heap α) :
    (let p := pin_rc.PinRc.new v h
     (pin_rc.PinRc.borrow_mut p.1 p.2).elim False fun q =>
       let h2 := pin_rc.PinRefMut.drop q.1 ((pin_rc.PinRefMut.as_pin q.1).modify f q.2)
       (pin_rc.PinRc.borrow_mut p.1 h2).elim False fun r =>
         let h3 := pin_rc.PinRefMut.drop r.1 ((pin_rc.PinRefMut.as_pin r.1).modify g r.2)
         (pin_rc.PinRc.borrow p.1 h3).elim False fun s =>
           pin_rc.PinRef.deref s.1 s.2 = some (g (f v))) ∧
    (let p := pin_arc.PinArc.new v ha
     (pin_arc.PinArc.write p.1 p.2).elim False fun q =>
       match q.1 with
       | .poisoned _ => False
       | .ok w1 =>
         let h2 := pin_arc.PinRwLockWriteGuard.drop w1
           ((pin_arc.PinRwLockWriteGuard.as_pin w1).modify f q.2)
         (pin_arc.PinArc.write p.1 h2).elim False fun r =>
           match r.1 with
           | .poisoned _ => False
           | .ok w2 =>
             let h3 := pin_arc.PinRwLockWriteGuard.drop w2
               ((pin_arc.PinRwLockWriteGuard.as_pin w2).modify g r.2)
             (pin_arc.PinArc.read p.1 h3).elim False fun s =>
               match s.1 with
               | .poisoned _ => False
               | .ok rg => pin_arc.PinRwLockReadGuard.deref rg s.2 = some (g (f v))) ∧
    (let p := pin_rc.PinRc.new 0 pin_rc.Heap.empty
     (pin_rc.PinRc.step_n p.1 (· + 1) 10 p.2).elim False fun h2 =>
       (pin_rc.PinRc.borrow p.1 h2).elim False fun q =>
         pin_rc.PinRef.deref q.1 q.2 = some 10) ∧
    (let p := pin_arc.PinArc.new 0 pin_arc.Heap.empty
     (pin_arc.PinArc.step_n p.1 (· + 1) 10 p.2).elim False fun h2 =>
       (pin_arc.PinArc.read p.1 h2).elim False fun q =>
         match q.1 with
         | .poisoned _ => False
         | .ok rg => pin_arc.PinRwLockReadGuard.deref rg q.2 = some 10) := by
  refine ⟨?_, ?_, ?_, ?_⟩
  · simp [pin_rc.PinRc.new, pin_rc.Rc.new, pin_rc.RefCell.new, pin_rc.PinRc.borrow,
      pin_rc.PinRc.borrow_mut, pin_rc.Rc.borrow, pin_rc.Rc.borrow_mut, pin_rc.Rc.try_borrow,
      pin_rc.Rc.try_borrow_mut, pin_rc.Heap.get, pin_rc.Heap.set, pin_rc.PinRef.deref,
      pin_rc.Ref.deref, pin_rc.PinRefMut.as_pin, pin_rc.Pin.modify, pin_rc.PinRefMut.drop,
      pin_rc.RefMut.drop, Except.toOption, Except.map, Function.update_same]
  · simp [pin_arc.PinArc.new, pin_arc.Arc.new, pin_arc.RwLock.new, pin_arc.PinArc.read,
      pin_arc.PinArc.write, pin_arc.Arc.read, pin_arc.Arc.write, pin_arc.Heap.get,
      pin_arc.Heap.set, pin_arc.PinRwLockReadGuard.deref, pin_arc.ReadGuard.deref,
      pin_arc.PinRwLockWriteGuard.as_pin, pin_arc.Pin.modify,
      pin_arc.PinRwLockWriteGuard.drop, pin_arc.WriteGuard.drop, Function.update_same]
  · rfl
  · rfl

/-- Claim C6 counterexample: the claim asserts that in both variants
equality and ordering of two handles compare the wrapped values, but
the multi-threaded container derives only `Default` and `Debug`
(src/pin_arc.rs line 10) — it has no equality or ordering at all,
unlike the single-threaded container (src/pin_rc.rs line 8). -/
theorem claim_C6_no_eq_ord_on_pin_arc :
    "PartialEq" ∈ pin_rc.PinRc.derivedTraits ∧
    "Ord" ∈ pin_rc.PinRc.derivedTraits ∧
    "PartialEq" ∉ pin_arc.PinArc.derivedTraits ∧
    "Ord" ∉ pin_arc.PinArc.derivedTraits ∧
    "Debug" ∈ pin_rc.PinRc.derivedTraits ∧
    "Debug" ∈ pin_arc.PinArc.derivedTraits := by
  refine ⟨by decide, by decide, by decide, by decide, by decide, by decide⟩

/-- Claim C6 (amended): the single-threaded container's derived
equality and ordering compare the underlying wrapped values, not the
allocation identity; debug formatting in both variants shows the
wrapped value only; `ptr_eq` is the separate identity comparison —
false on two separately allocated containers holding equal values,
true on a handle and its clone.  (Only the single-threaded variant
derives equality/ordering; the multi-threaded one derives only
`Default` and `Debug`.) -/
theorem claim_C6_value_based_comparisons (α : Type) (v w : α) (beq : α → α → Bool)
    (cmp : α → α → Ordering) (fmt : α → String)
    (h : pin_rc.Heap α) (ha : pin_arc.Heap α) :
    (let p := pin_rc.PinRc.new v h
     let q := pin_rc.PinRc.new w p.2
     pin_rc.PinRc.eqVal beq p.1 q.1 q.2 = some (beq v w) ∧
     pin_rc.PinRc.cmpVal cmp p.1 q.1 q.2 = some (cmp v w) ∧
     pin_rc.PinRc.ptr_eq p.1 q.1 = false ∧
     pin_rc.PinRc.ptr_eq p.1 (pin_rc.PinRc.clone p.1 q.2).1 = true) ∧
    (let p := pin_rc.PinRc.new v h
     let q := pin_rc.PinRc.new v p.2
     pin_rc.PinRc.debug_fmt fmt p.1 q.2 = pin_rc.PinRc.debug_fmt fmt q.1 q.2 ∧
     pin_rc.PinRc.ptr_eq p.1 q.1 = false) ∧
    (let p := pin_arc.PinArc.new v ha
     let q := pin_arc.PinArc.new v p.2
     pin_arc.PinArc.debug_fmt fmt p.1 q.2 = pin_arc.PinArc.debug_fmt fmt q.1 q.2 ∧
     pin_arc.PinArc.ptr_eq p.1 q.1 = false ∧
     pin_arc.PinArc.ptr_eq p.1 (pin_arc.PinArc.clone p.1 q.2).1 = true) := by
  have hne : h.next ≠ h.next + 1 := Ne.symm (Nat.succ_ne_self h.next)
  have hane : ha.next ≠ ha.next + 1 := Ne.symm (Nat.succ_ne_self ha.next)
  refine ⟨?_, ?_, ?_⟩
  · simp [pin_rc.PinRc.new, pin_rc.Rc.new, pin_rc.RefCell.new, pin_rc.PinRc.eqVal,
      pin_rc.PinRc.cmpVal, pin_rc.PinRc.ptr_eq, pin_rc.Rc.ptr_eq, pin_rc.PinRc.clone,
      pin_rc.Rc.clone, pin_rc.Heap.get, pin_rc.Heap.set, Function.update_same,
      Function.update_noteq hne, hne]
  · simp [pin_rc.PinRc.new, pin_rc.Rc.new, pin_rc.RefCell.new, pin_rc.PinRc.debug_fmt,
      pin_rc.RefCell.debug_fmt, pin_rc.PinRc.ptr_eq, pin_rc.Rc.ptr_eq, pin_rc.Heap.get,
      pin_rc.Heap.set, Function.update_same, Function.update_noteq hne, hne]
  · simp [pin_arc.PinArc.new, pin_arc.Arc.new, pin_arc.RwLock.new, pin_arc.PinArc.debug_fmt,
      pin_arc.RwLock.debug_fmt, pin_arc.PinArc.ptr_eq, pin_arc.Arc.ptr_eq,
      pin_arc.PinArc.clone, pin_arc.Arc.clone, pin_arc.Heap.get, pin_arc.Heap.set,
      Function.update_same, Function.update_noteq hane, hane]

/-- Claim C7: `clone()` increments the strong count by one, allocates
nothing (the fresh-id counter is unchanged) and returns a handle
aliasing the same allocation (`ptr_eq` true); after the original handle
is dropped, the clone still reads the intact wrapped value. -/
theorem claim_C7_clone_shares_allocation (α : Type) (v : α)
    (h : pin_rc.Heap α) (ha : pin_arc.Heap α) :
    (let p := pin_rc.PinRc.new v h
     let q := pin_rc.PinRc.clone p.1 p.2
     pin_rc.PinRc.strong_count p.1 q.2 = pin_rc.PinRc.strong_count p.1 p.2 + 1 ∧
     pin_rc.PinRc.ptr_eq p.1 q.1 = true ∧
     (q.2).next = (p.2).next ∧
     ((pin_rc.PinRc.borrow q.1 (pin_rc.PinRc.drop p.1 q.2)).elim False fun r =>
       pin_rc.PinRef.deref r.1 r.2 = some v)) ∧
    (let p := pin_arc.PinArc.new v ha
     let q := pin_arc.PinArc.clone p.1 p.2
     pin_arc.PinArc.strong_count p.1 q.2 = pin_arc.PinArc.strong_count p.1 p.2 + 1 ∧
     pin_arc.PinArc.ptr_eq p.1 q.1 = true ∧
     (q.2).next = (p.2).next ∧
     ((pin_arc.PinArc.read q.1 (pin_arc.PinArc.drop p.1 q.2)).elim False fun r =>
       match r.1 with
       | .ok g => pin_arc.PinRwLockReadGuard.deref g r.2 = some v
       | .poisoned _ => False)) := by
  constructor
  · simp [pin_rc.PinRc.new, pin_rc.Rc.new, pin_rc.RefCell.new, pin_rc.PinRc.clone,
      pin_rc.Rc.clone, pin_rc.PinRc.strong_count, pin_rc.Rc.strong_count,
      pin_rc.PinRc.ptr_eq, pin_rc.Rc.ptr_eq, pin_rc.PinRc.drop, pin_rc.Rc.drop,
      pin_rc.PinRc.borrow, pin_rc.Rc.borrow, pin_rc.Rc.try_borrow, pin_rc.PinRef.deref,
      pin_rc.Ref.deref, pin_rc.Heap.get, pin_rc.Heap.set, Except.toOption, Except.map,
      Function.update_same]
  · simp [pin_arc.PinArc.new, pin_arc.Arc.new, pin_arc.RwLock.new, pin_arc.PinArc.clone,
      pin_arc.Arc.clone, pin_arc.PinArc.strong_count, pin_arc.Arc.strong_count,
      pin_arc.PinArc.ptr_eq, pin_arc.Arc.ptr_eq, pin_arc.PinArc.drop, pin_arc.Arc.drop,
      pin_arc.PinArc.read, pin_arc.Arc.read, pin_arc.PinRwLockReadGuard.deref,
      pin_arc.ReadGuard.deref, pin_arc.Heap.get, pin_arc.Heap.set, Function.update_same]

/-- Claim C8: `downgrade()` returns a weak reference to the same
allocation and increments the weak count by one, while leaving the
strong count and the wrapped value unchanged. -/
theorem claim_C8_downgrade_frame (α : Type) (v : α)
    (h : pin_rc.Heap α) (ha : pin_arc.Heap α) :
    (let p := pin_rc.PinRc.new v h
     let q := pin_rc.PinRc.downgrade p.1 p.2
     pin_rc.PinRc.weak_count p.1 q.2 = pin_rc.PinRc.weak_count p.1 p.2 + 1 ∧
     pin_rc.PinRc.strong_count p.1 q.2 = pin_rc.PinRc.strong_count p.1 p.2 ∧
     q.1.inner.id = some p.1.inner.id ∧
     ((pin_rc.PinRc.borrow p.1 q.2).elim False fun r =>
       pin_rc.PinRef.deref r.1 r.2 = some v)) ∧
    (let p := pin_arc.PinArc.new v ha
     let q := pin_arc.PinArc.downgrade p.1 p.2
     pin_arc.PinArc.weak_count p.1 q.2 = pin_arc.PinArc.weak_count p.1 p.2 + 1 ∧
     pin_arc.PinArc.strong_count p.1 q.2 = pin_arc.PinArc.strong_count p.1 p.2 ∧
     q.1.inner.id = some p.1.inner.id ∧
     ((pin_arc.PinArc.read p.1 q.2).elim False fun r =>
       match r.1 with
       | .ok g => pin_arc.PinRwLockReadGuard.deref g r.2 = some v
       | .poisoned _ => False)) := by
  constructor
  · simp [pin_rc.PinRc.new, pin_rc.Rc.new, pin_rc.RefCell.new, pin_rc.PinRc.downgrade,
      pin_rc.Rc.downgrade, pin_rc.PinRc.weak_count, pin_rc.Rc.weak_count,
      pin_rc.PinRc.strong_count, pin_rc.Rc.strong_count, pin_rc.PinRc.borrow,
      pin_rc.Rc.borrow, pin_rc.Rc.try_borrow, pin_rc.PinRef.deref, pin_rc.Ref.deref,
      pin_rc.Heap.get, pin_rc.Heap.set, Except.toOption, Except.map, Function.update_same]
  · simp [pin_arc.PinArc.new, pin_arc.Arc.new, pin_arc.RwLock.new, pin_arc.PinArc.downgrade,
      pin_arc.Arc.downgrade, pin_arc.PinArc.weak_count, pin_arc.Arc.weak_count,
      pin_arc.PinArc.strong_count, pin_arc.Arc.strong_count, pin_arc.PinArc.read,
      pin_arc.Arc.read, pin_arc.PinRwLockReadGuard.deref, pin_arc.ReadGuard.deref,
      pin_arc.Heap.get, pin_arc.Heap.set, Function.update_same]

/-- Claim C9: the checked extraction `safe_unpin` carries the
`T: Unpin` bound (it is defined only under that bound, while the `From`
conversion in the other direction has no bound), and converting the
underlying shared value into a container and extracting it again with
`safe_unpin` returns the same shared handle: same allocation, same
contents (the heap is untouched by both conversions). -/
theorem claim_C9_unpin_conversion_round_trip :
    (∀ (α : Type) [Unpin α] (rc : pin_rc.Rc α),
      pin_rc.PinRc.safe_unpin (pin_rc.PinRc.from_rc rc) = rc) ∧
    (∀ (α : Type) [Unpin α] (a : pin_arc.Arc α),
      pin_arc.PinArc.safe_unpin (pin_arc.PinArc.from_arc a) = a) :=
  ⟨fun _ _ _ => rfl, fun _ _ _ => rfl⟩

/-- Witness for claim C9 at a concrete handle of a concrete `Unpin`
type. -/
theorem claim_C9_witness :
    pin_rc.PinRc.safe_unpin (pin_rc.PinRc.from_rc (⟨0⟩ : pin_rc.Rc Nat)) = ⟨0⟩ ∧
    pin_arc.PinArc.safe_unpin (pin_arc.PinArc.from_arc (⟨0⟩ : pin_arc.Arc Nat)) = ⟨0⟩ :=
  ⟨claim_C9_unpin_conversion_round_trip.1 Nat ⟨0⟩,
   claim_C9_unpin_conversion_round_trip.2 Nat ⟨0⟩⟩

/-- Claim C10: a weak reference made by `PinWeak::default()` in either
variant, never derived from any container, yields `none` on every call
to `upgrade()`, on every heap. -/
theorem claim_C10_default_weak_never_upgrades (α : Type)
    (h : pin_rc.Heap α) (ha : pin_arc.Heap α) :
    (pin_rc.PinWeak.upgrade pin_rc.PinWeak.default h).1 = none ∧
    (pin_arc.PinWeak.upgrade pin_arc.PinWeak.default ha).1 = none :=
  ⟨rfl, rfl⟩

end Theorems
